import Mathlib

/-!
Shallow embedding of `main.py` from the httpxasync demonstration repository.

The script wraps `httpx.AsyncClient` in three small classes
(`BadAsyncHTTPClient`, `ForgetfulAsyncHTTPClient`, `ProperAsyncHTTPClient`),
reads process resource counters (`get_process_info`), and runs a fixed
sequence of demonstration routines from `main`.

Modelling conventions:
* An `httpx.AsyncClient` handle is a natural number issued by a `World` that
  tracks the next fresh handle and the list of currently open handles.
  Acquisition and release are recorded as events (`Ev`).
* Python exceptions are values of `PyErr`; fallible operations return
  `Except PyErr _`.  A network request to one of the script's nonexistent
  hosts is modelled by an explicit outcome parameter.
* The demonstration routines, which are straight-line print-and-measure
  code, are additionally abstracted as traces of resource-relevant actions
  (`Act`): snapshot reads, snapshot prints, client acquisitions, releases
  (manual, scoped by `__aexit__`, or a non-awaited `aclose()`), and
  deliberately provoked exceptions that are caught in the routine.
  Plain `print` calls, `gc.collect()` and `asyncio.sleep` are not traced.
-/

/-- The pool of OS-level client handles: `nextHandle` is the next fresh
handle id, `openHandles` the handles currently open (not yet closed). -/
structure World where
  nextHandle : Nat
  openHandles : List Nat
deriving DecidableEq

/-- Resource events: acquisition of a client handle (constructing an
`httpx.AsyncClient`) and release of one (an awaited `aclose`). -/
inductive Ev where
  | acquire (h : Nat)
  | release (h : Nat)
deriving DecidableEq

/-- Python exceptions raised in the script: the hard-coded `ValueError`,
the `AttributeError` from using `None` as a client, and network errors
(DNS failure, timeout, ...) from requests to nonexistent hosts. -/
inductive PyErr where
  | valueError (msg : String)
  | attributeError
  | networkError (name : String)
deriving DecidableEq

/-- Constructing `httpx.AsyncClient(...)`: issues a fresh handle and adds it
to the open set. -/
def httpxAsyncClient (w : World) : Nat × World :=
  (w.nextHandle, ⟨w.nextHandle + 1, w.nextHandle :: w.openHandles⟩)

/-- `await client.aclose()`: removes the handle from the open set. -/
def aclose (h : Nat) (w : World) : World :=
  ⟨w.nextHandle, w.openHandles.filter (fun x => x != h)⟩

/-- `BadAsyncHTTPClient`: wrapper whose `__init__` eagerly constructs the
underlying client; it has no `__aenter__`/`__aexit__` and no cleanup. -/
structure BadAsyncHTTPClient where
  base_url : String
  client : Nat
deriving DecidableEq

/-- `ForgetfulAsyncHTTPClient` / `ProperAsyncHTTPClient` state: base URL and
an optional underlying client handle (`None` until `__aenter__`). -/
structure ForgetfulAsyncHTTPClient where
  base_url : String
  client : Option Nat
deriving DecidableEq

structure ProperAsyncHTTPClient where
  base_url : String
  client : Option Nat
deriving DecidableEq

/-- `BadAsyncHTTPClient.__init__`: stores the base URL and immediately
constructs an `httpx.AsyncClient`. -/
def BadAsyncHTTPClient.init (base_url : String) (w : World) :
    BadAsyncHTTPClient × World × List Ev :=
  let (h, w1) := httpxAsyncClient w
  (⟨base_url, h⟩, w1, [Ev.acquire h])

/-- `BadAsyncHTTPClient.get`: delegates to the underlying client; the
network outcome (status code or error) is an explicit parameter. -/
def BadAsyncHTTPClient.get (self : BadAsyncHTTPClient) (url : String)
    (net : Except PyErr Nat) (w : World) : Except PyErr Nat × World × List Ev :=
  let _ := self
  let _ := url
  (net, w, [])

/-- `ForgetfulAsyncHTTPClient.__init__`: stores the base URL and sets
`self.client = None`; no handle is acquired. -/
def ForgetfulAsyncHTTPClient.init (base_url : String) : ForgetfulAsyncHTTPClient :=
  ⟨base_url, none⟩

/-- `ForgetfulAsyncHTTPClient.__aenter__`: constructs the underlying client
and stores it in `self.client`. -/
def ForgetfulAsyncHTTPClient.aenter (self : ForgetfulAsyncHTTPClient) (w : World) :
    ForgetfulAsyncHTTPClient × World × List Ev :=
  let (h, w1) := httpxAsyncClient w
  ({ self with client := some h }, w1, [Ev.acquire h])

/-- `ForgetfulAsyncHTTPClient.__aexit__`: `await self.client.aclose()` with
no guard — on `self.client = None` this is `None.aclose()`, an
`AttributeError`. -/
def ForgetfulAsyncHTTPClient.aexit (self : ForgetfulAsyncHTTPClient) (w : World) :
    Except PyErr (World × List Ev) :=
  match self.client with
  | none => .error PyErr.attributeError
  | some h => .ok (aclose h w, [Ev.release h])

/-- `ForgetfulAsyncHTTPClient.get`: `await self.client.get(url)`; on
`self.client = None` this raises `AttributeError` before touching the
network, otherwise it performs the request with the given outcome. -/
def ForgetfulAsyncHTTPClient.get (self : ForgetfulAsyncHTTPClient) (url : String)
    (net : Except PyErr Nat) (w : World) : Except PyErr Nat × World × List Ev :=
  let _ := url
  match self.client with
  | none => (.error PyErr.attributeError, w, [])
  | some _ => (net, w, [])

/-- `ProperAsyncHTTPClient.__init__`: stores the base URL and sets
`self.client = None`; no handle is acquired. -/
def ProperAsyncHTTPClient.init (base_url : String) : ProperAsyncHTTPClient :=
  ⟨base_url, none⟩

/-- `ProperAsyncHTTPClient.__aenter__`: constructs the underlying client
and stores it in `self.client`. -/
def ProperAsyncHTTPClient.aenter (self : ProperAsyncHTTPClient) (w : World) :
    ProperAsyncHTTPClient × World × List Ev :=
  let (h, w1) := httpxAsyncClient w
  ({ self with client := some h }, w1, [Ev.acquire h])

/-- `ProperAsyncHTTPClient.__aexit__`: `if self.client: await
self.client.aclose()` — the `None` guard makes the no-client case a no-op
(an `httpx.AsyncClient` instance is always truthy, so the guard is exactly
a test for `None`). -/
def ProperAsyncHTTPClient.aexit (self : ProperAsyncHTTPClient) (w : World) :
    Except PyErr (World × List Ev) :=
  match self.client with
  | none => .ok (w, [])
  | some h => .ok (aclose h w, [Ev.release h])

/-- `ProperAsyncHTTPClient.get`: identical to the forgetful variant's. -/
def ProperAsyncHTTPClient.get (self : ProperAsyncHTTPClient) (url : String)
    (net : Except PyErr Nat) (w : World) : Except PyErr Nat × World × List Ev :=
  let _ := url
  match self.client with
  | none => (.error PyErr.attributeError, w, [])
  | some _ => (net, w, [])

/-- `async with ProperAsyncHTTPClient(base_url) as client: <body>`:
construct, `__aenter__`, run the body (in this script a body either
completes or raises without touching the handle; `body = some e` means it
raises `e`), then `__aexit__` runs on every exit path; since `__aexit__`
returns `None` (falsy), a body exception is re-raised after cleanup. -/
def asyncWithProper (base_url : String) (body : Option PyErr) (w : World) :
    Except PyErr Unit × World × List Ev :=
  let self := ProperAsyncHTTPClient.init base_url
  let (self1, w1, tr1) := self.aenter w
  match self1.aexit w1 with
  | .ok (w2, tr2) =>
      (match body with
       | none => .ok ()
       | some e => .error e, w2, tr1 ++ tr2)
  | .error e2 => (.error e2, w1, tr1)

/-- A value stored in the dict returned by `get_process_info`: the fd,
thread and connection counters are integers, the memory counter a float
(modelled as a rational). -/
inductive InfoVal where
  | int (n : Nat)
  | float (q : Rat)
deriving DecidableEq

/-- One point-in-time set of OS readings for the current process, as exposed
by `psutil.Process`: whether `num_fds` exists on this platform, its value,
the length of `open_files()`, `num_threads()`, `memory_info().rss`, and the
length of `connections()`. -/
structure ProcSample where
  has_num_fds : Bool
  num_fds : Nat
  open_files : Nat
  num_threads : Nat
  rss : Nat
  num_connections : Nat
deriving DecidableEq

/-- `get_process_info()`: builds the four-entry dict from one `ProcSample`
(one point in time).  `fds` falls back to `len(open_files())` on platforms
without `num_fds`; `memory_mb` is `rss / 1024 / 1024`. -/
def get_process_info (p : ProcSample) : List (String × InfoVal) :=
  [("fds", InfoVal.int (if p.has_num_fds then p.num_fds else p.open_files)),
   ("threads", InfoVal.int p.num_threads),
   ("memory_mb", InfoVal.float ((p.rss : Rat) / 1024 / 1024)),
   ("connections", InfoVal.int p.num_connections)]

/-- The demonstration routines that exist in the script: `demo_1` ...
`demo_8` and `demo_11` ... `demo_13` (there are no routines numbered 9
or 10). -/
inductive Demo where
  | d1 | d2 | d3 | d4 | d5 | d6 | d7 | d8 | d11 | d12 | d13
deriving DecidableEq

/-- Resource-relevant actions a demonstration routine performs, in program
order: `getInfo` is a `get_process_info()` call, `printRes` a
`print_resources(...)` call, `construct` a wrapper constructor that
acquires nothing, `acquire` any construction of an `httpx.AsyncClient`
(directly, via `BadAsyncHTTPClient.__init__`, via `__aenter__`, or via
manual field assignment), `release` an awaited manual `aclose`,
`scopedRelease` an `aclose` executed by `__aexit__` of an `async with`
block, `acloseNoAwait` the non-awaited `client.aclose()` of demo 8 (the
coroutine never runs, nothing is released), and `raiseCaught` an exception
raised and caught inside the routine. -/
inductive Act where
  | getInfo
  | printRes
  | construct
  | acquire
  | release
  | scopedRelease
  | acloseNoAwait
  | raiseCaught
deriving DecidableEq

/-- Per-routine action traces, transcribed from the bodies of
`demo_1_no_cleanup` ... `demo_13_thread_behavior_on_exception`.  Requests
to the script's deliberately nonexistent hosts are modelled as raising. -/
def demoTrace : Demo → List Act
  | .d1 =>
      [Act.getInfo, Act.printRes] ++ List.replicate 10 Act.acquire ++
      [Act.getInfo, Act.printRes, Act.getInfo, Act.printRes]
  | .d2 =>
      [Act.getInfo, Act.printRes, Act.construct, Act.acquire,
       Act.getInfo, Act.printRes, Act.getInfo, Act.printRes]
  | .d3 =>
      [Act.getInfo, Act.printRes, Act.acquire, Act.getInfo, Act.printRes,
       Act.raiseCaught, Act.getInfo, Act.printRes]
  | .d4 =>
      [Act.acquire]
  | .d5 =>
      [Act.getInfo, Act.printRes] ++
      ((List.range 50).flatMap fun i =>
        [Act.acquire] ++ (if i % 10 == 9 then [Act.getInfo] else [])) ++
      [Act.getInfo, Act.printRes] ++ List.replicate 50 Act.release
  | .d6 =>
      [Act.getInfo, Act.printRes] ++
      ((List.range 10).flatMap fun i =>
        [Act.acquire, Act.scopedRelease] ++
        (if i % 3 == 2 then [Act.getInfo] else [])) ++
      [Act.getInfo, Act.printRes]
  | .d7 =>
      [Act.getInfo, Act.printRes] ++ List.replicate 20 Act.acquire ++
      [Act.getInfo, Act.printRes]
  | .d8 =>
      [Act.getInfo, Act.printRes, Act.acquire, Act.acloseNoAwait,
       Act.getInfo, Act.printRes, Act.release]
  | .d11 =>
      [Act.getInfo, Act.printRes, Act.construct, Act.raiseCaught,
       Act.construct, Act.acquire, Act.getInfo, Act.printRes, Act.raiseCaught,
       Act.getInfo, Act.printRes,
       Act.getInfo, Act.printRes, Act.acquire, Act.getInfo, Act.printRes,
       Act.scopedRelease, Act.raiseCaught, Act.getInfo, Act.printRes]
  | .d12 =>
      [Act.getInfo, Act.printRes, Act.construct, Act.acquire, Act.raiseCaught,
       Act.getInfo, Act.printRes,
       Act.getInfo, Act.acquire, Act.scopedRelease, Act.raiseCaught,
       Act.getInfo, Act.printRes]
  | .d13 =>
      [Act.getInfo, Act.printRes, Act.construct, Act.acquire,
       Act.getInfo, Act.printRes, Act.raiseCaught, Act.getInfo, Act.printRes,
       Act.release, Act.getInfo, Act.printRes]

/-- A step of the driver `main`: run one demonstration routine or pause
with `await asyncio.sleep(1)`. -/
inductive MainStep where
  | demo (d : Demo)
  | sleep1
deriving DecidableEq

/-- The body of `main`'s `try` block: the routines it awaits, in order,
with the sleeps between them. -/
def mainSchedule : List MainStep :=
  [MainStep.demo Demo.d1, MainStep.sleep1,
   MainStep.demo Demo.d2, MainStep.sleep1,
   MainStep.demo Demo.d3, MainStep.sleep1,
   MainStep.demo Demo.d4, MainStep.sleep1,
   MainStep.demo Demo.d5, MainStep.sleep1,
   MainStep.demo Demo.d6, MainStep.sleep1,
   MainStep.demo Demo.d7, MainStep.sleep1,
   MainStep.demo Demo.d8, MainStep.sleep1,
   MainStep.demo Demo.d11, MainStep.sleep1,
   MainStep.demo Demo.d12, MainStep.sleep1,
   MainStep.demo Demo.d13]

/-- The demonstration routines `main` runs, in order. -/
def mainDemos : List Demo :=
  mainSchedule.filterMap fun s =>
    match s with
    | MainStep.demo d => some d
    | MainStep.sleep1 => none

/-- `True` iff the trace prints a resource snapshot (`print_resources`)
before its first client acquisition and prints one again after its last
client acquisition. -/
def printsBeforeAndAfter (t : List Act) : Bool :=
  ((t.takeWhile fun a => a != Act.acquire).contains Act.printRes) &&
  ((t.reverse.takeWhile fun a => a != Act.acquire).contains Act.printRes)

/-- `True` iff the routine performs a scoped release: an `aclose` run by
`__aexit__` of an `async with` block. -/
def usesScopedRelease (d : Demo) : Bool :=
  (demoTrace d).contains Act.scopedRelease

/-- A Python `try: <body> except E: <log>` whose handler only logs: a body
exception matched by the handler is swallowed, any other propagates. -/
def tryLogged (body : Except PyErr Unit) (handles : PyErr → Bool) :
    Except PyErr Unit :=
  match body with
  | .ok () => .ok ()
  | .error e => if handles e then .ok () else .error e

/-- The handler clause `except ValueError`. -/
def isValueError : PyErr → Bool
  | .valueError _ => true
  | _ => false

/-- The handler clause `except Exception` (every `PyErr` is an
`Exception`); also the union of demo 11's `except AttributeError` and
`except Exception` clauses. -/
def catchAll : PyErr → Bool := fun _ => true

/-- Exception outcome of each demonstration routine, from its `try/except`
structure.  `net` is the error raised by a request to one of the
deliberately nonexistent hosts.  Routines without a provoked exception
complete normally; demo 3 raises a hard-coded `ValueError` caught by its
`except ValueError`; demos 11-13 provoke an `AttributeError` and/or network
errors, each caught by `except AttributeError`/`except Exception`. -/
def demoResult (net : PyErr) : Demo → Except PyErr Unit
  | .d1 => .ok ()
  | .d2 => .ok ()
  | .d3 => tryLogged (.error (PyErr.valueError "Something went wrong!")) isValueError
  | .d4 => .ok ()
  | .d5 => .ok ()
  | .d6 => .ok ()
  | .d7 => .ok ()
  | .d8 => .ok ()
  | .d11 =>
      tryLogged (.error PyErr.attributeError) catchAll >>= fun _ =>
      tryLogged (.error net) catchAll >>= fun _ =>
      tryLogged (.error net) catchAll
  | .d12 =>
      tryLogged (.error net) catchAll >>= fun _ =>
      tryLogged (.error net) catchAll
  | .d13 => tryLogged (.error net) catchAll

/-- `main()`: awaits the routines of `mainDemos` in order inside one `try`
whose `except Exception` prints the error and a traceback; the summary
then prints regardless. -/
def mainRun (net : PyErr) : Except PyErr Unit :=
  tryLogged
    (mainDemos.foldl (fun acc d => acc >>= fun _ => demoResult net d) (.ok ()))
    catchAll

/-- `bad_worker` from `demo_7_concurrent_tasks_leak`: constructs its own
`httpx.AsyncClient`, sleeps, returns its id; it never closes the client. -/
def bad_worker (worker_id : Nat) (w : World) : Nat × World × List Ev :=
  let (h, w1) := httpxAsyncClient w
  (worker_id, w1, [Ev.acquire h])

/-- `await asyncio.gather(*[bad_worker(i) for i in ids])`: runs every
worker to completion and collects all results before returning.  The
workers share no state and each one's only effect is acquiring its own
handle, so on the single-threaded cooperative scheduler any interleaving
produces the same per-worker effects; they are folded here in list
order. -/
def gather (ids : List Nat) (w : World) : List Nat × World × List Ev :=
  match ids with
  | [] => ([], w, [])
  | i :: rest =>
      let (r, w1, tr1) := bad_worker i w
      let (rs, w2, tr2) := gather rest w1
      (r :: rs, w2, tr1 ++ tr2)

/-- `demo_7_concurrent_tasks_leak`'s fan-out: start 20 concurrent workers
and wait for all of them. -/
def demo_7_concurrent_tasks_leak (w : World) : List Nat × World × List Ev :=
  gather (List.range 20) w

/-- `Ev.release _` test. -/
def isRelease : Ev → Bool
  | .release _ => true
  | _ => false

/-- `Ev.acquire _` test. -/
def isAcquire : Ev → Bool
  | .acquire _ => true
  | _ => false

theorem asyncWithProper_eq (url : String) (body : Option PyErr) (w : World) :
    asyncWithProper url body w =
      ((match body with
        | none => Except.ok ()
        | some e => Except.error e),
       ⟨w.nextHandle + 1,
        (w.nextHandle :: w.openHandles).filter (fun x => x != w.nextHandle)⟩,
       [Ev.acquire w.nextHandle, Ev.release w.nextHandle]) := by
  cases body <;> rfl

/-- Claim C1: in the correct-usage variant `ProperAsyncHTTPClient` used via
`async with`, the client handle acquired in `__aenter__` is released
exactly once, by `__aexit__`'s `aclose`, on every exit path — normal
completion (`body = none`) and raised exception (`body = some e`) alike:
the trace is acquire-then-release, the release of the acquired handle
occurs exactly once, the handle is no longer open afterwards, and the
body's outcome is propagated. -/
theorem proper_async_with_releases_once (url : String) (body : Option PyErr) (w : World) :
    (asyncWithProper url body w).2.2 =
      [Ev.acquire w.nextHandle, Ev.release w.nextHandle] ∧
    (asyncWithProper url body w).2.2.count (Ev.release w.nextHandle) = 1 ∧
    w.nextHandle ∉ (asyncWithProper url body w).2.1.openHandles ∧
    (asyncWithProper url body w).1 =
      (match body with
       | none => Except.ok ()
       | some e => Except.error e) := by
  rw [asyncWithProper_eq]
  refine ⟨rfl, ?_, ?_, rfl⟩
  · simp [List.count_cons]
  · simp [List.mem_filter]

/-- Claim C2, counterexample: `main` runs eleven demonstration routines,
not thirteen. -/
theorem main_runs_eleven_not_thirteen :
    mainDemos.length = 11 ∧ mainDemos.length ≠ 13 := by decide

/-- Claim C2, amended: the driver runs exactly eleven demonstration
scenarios (numbered 1-8 and 11-13; no routines 9 or 10 exist), strictly
one after another, with a sleep between each consecutive pair. -/
theorem main_schedule_eleven_sequential_with_pauses :
    mainDemos = [Demo.d1, Demo.d2, Demo.d3, Demo.d4, Demo.d5, Demo.d6,
                 Demo.d7, Demo.d8, Demo.d11, Demo.d12, Demo.d13] ∧
    mainDemos.length = 11 ∧
    mainSchedule = List.intersperse MainStep.sleep1 (mainDemos.map MainStep.demo) := by
  refine ⟨by decide, by decide, by decide⟩

/-- Claim C3, counterexample: `demo_4_resource_warnings` is run by the
driver but prints no resource snapshot at all, neither before nor after
its client acquisition. -/
theorem demo4_prints_no_snapshots :
    Demo.d4 ∈ mainDemos ∧ printsBeforeAndAfter (demoTrace Demo.d4) = false := by
  decide

/-- Claim C3, amended: every demonstration scenario except demo 4 (the
`ResourceWarning` scenario, which prints none) prints a resource snapshot
before its first client acquisition and again after its last one. -/
theorem all_demos_but_demo4_print_snapshots (d : Demo) (hd : d ≠ Demo.d4) :
    printsBeforeAndAfter (demoTrace d) = true := by
  cases d <;> first | decide | exact absurd rfl hd

theorem all_demos_but_demo4_print_snapshots_witness :
    printsBeforeAndAfter (demoTrace Demo.d1) = true :=
  all_demos_but_demo4_print_snapshots Demo.d1 (by decide)

/-- Claim C4, counterexample: the final scenario the driver runs is
demo 13, and demo 13 performs no scoped (deterministic `async with`)
release — it is not the scenario contrasting the correct scoped pattern
with the incorrect ones. -/
theorem final_demo_not_scoped_contrast :
    mainDemos.getLast? = some Demo.d13 ∧ usesScopedRelease Demo.d13 = false := by
  decide

/-- Claim C4, amended: the scenario that contrasts the correct pattern of
deterministic scoped acquisition/release with the incorrect ones, demo 6,
is run sixth (scoped release also appears inside demos 11 and 12); the
final scenario the driver runs is demo 13, which instead contrasts a
client left open after a caught exception with an explicit manual
`aclose`. -/
theorem scoped_contrast_demo_is_sixth_not_last :
    mainDemos.getLast? = some Demo.d13 ∧
    mainDemos.filter usesScopedRelease = [Demo.d6, Demo.d11, Demo.d12] ∧
    mainDemos.indexOf Demo.d6 = 5 ∧
    usesScopedRelease Demo.d13 = false ∧
    (demoTrace Demo.d13).contains Act.raiseCaught = true ∧
    (demoTrace Demo.d13).contains Act.release = true := by
  decide

/-- Claim C5: every deliberately provoked exception (the hard-coded
`ValueError` of demo 3, the `AttributeError` and the network errors of
demos 11-13, for any network error `net`) is caught inside its
demonstration routine, so each routine completes normally; the driver
(whose own `except Exception` also only logs) completes normally; each
scenario is run exactly once (nothing is retried); and exactly the
routines 3, 11, 12 and 13 log a caught exception. -/
theorem provoked_exceptions_caught_and_run_continues (net : PyErr) (d : Demo) :
    demoResult net d = Except.ok () ∧
    mainRun net = Except.ok () ∧
    mainDemos.count d = 1 ∧
    mainDemos.filter (fun x => (demoTrace x).contains Act.raiseCaught) =
      [Demo.d3, Demo.d11, Demo.d12, Demo.d13] := by
  refine ⟨?_, ?_, ?_, by decide⟩
  · cases d <;> rfl
  · rfl
  · cases d <;> decide

/-- Claim C6: `get_process_info` returns a mapping with exactly four keys
— open file descriptors, thread count, RSS memory in MB, and open network
connections — each read from the single point-in-time process sample `p`
(with the documented `open_files` fallback when `num_fds` is missing). -/
theorem get_process_info_four_counters (p : ProcSample) :
    (get_process_info p).length = 4 ∧
    (get_process_info p).map Prod.fst = ["fds", "threads", "memory_mb", "connections"] ∧
    (get_process_info p).lookup "fds" =
      some (InfoVal.int (if p.has_num_fds then p.num_fds else p.open_files)) ∧
    (get_process_info p).lookup "threads" = some (InfoVal.int p.num_threads) ∧
    (get_process_info p).lookup "memory_mb" =
      some (InfoVal.float ((p.rss : Rat) / 1024 / 1024)) ∧
    (get_process_info p).lookup "connections" = some (InfoVal.int p.num_connections) := by
  refine ⟨rfl, rfl, rfl, rfl, rfl, rfl⟩

theorem gather_eq (ids : List Nat) (w : World) :
    gather ids w =
      (ids,
       ⟨w.nextHandle + ids.length,
        (List.range' w.nextHandle ids.length).reverse ++ w.openHandles⟩,
       (List.range' w.nextHandle ids.length).map Ev.acquire) := by
  induction ids generalizing w with
  | nil => simp [gather]
  | cons i rest ih =>
      simp [gather, bad_worker, httpxAsyncClient, ih, List.range'_succ,
        Nat.add_comm, Nat.add_assoc, Nat.add_left_comm]

/-- Claim C7: demo 7 launches a fan-out of exactly 20 workers, waits for
all of them (all 20 results are collected before the routine proceeds),
each worker acquires its own distinct client handle and never releases it
(20 acquire events, 0 release events, every acquired handle still open,
the open set grows by 20), and no ordering, cancellation or timeout is
imposed among the workers: every worker completes with its own id, and
the final world is the same whatever list of worker ids (in whatever
order) is gathered, depending only on how many there are. -/
theorem demo7_fanout_leaks (w : World) (ids : List Nat) :
    (demo_7_concurrent_tasks_leak w).1 = List.range 20 ∧
    (demo_7_concurrent_tasks_leak w).1.length = 20 ∧
    (demo_7_concurrent_tasks_leak w).2.2.countP isAcquire = 20 ∧
    (demo_7_concurrent_tasks_leak w).2.2.countP isRelease = 0 ∧
    (demo_7_concurrent_tasks_leak w).2.1.openHandles.length =
      w.openHandles.length + 20 ∧
    ((List.range 20).all fun i =>
      (demo_7_concurrent_tasks_leak w).2.1.openHandles.contains (w.nextHandle + i)) = true ∧
    (gather ids w).1 = ids ∧
    (gather ids w).2.1 = (gather (List.range ids.length) w).2.1 := by
  refine ⟨?_, ?_, ?_, ?_, ?_, ?_, ?_, ?_⟩
  · rw [demo_7_concurrent_tasks_leak, gather_eq]
  · rw [demo_7_concurrent_tasks_leak, gather_eq]; simp
  · rw [demo_7_concurrent_tasks_leak, gather_eq]
    simp [List.countP_map, isAcquire, Function.comp_def]
  · rw [demo_7_concurrent_tasks_leak, gather_eq]
    simp [List.countP_map, isRelease, Function.comp_def]
  · rw [demo_7_concurrent_tasks_leak, gather_eq]
    simp [Nat.add_comm]
  · rw [demo_7_concurrent_tasks_leak, gather_eq]
    simp only [List.all_eq_true, List.mem_range]
    intro i hi
    have hmem : w.nextHandle + i ∈
        (List.range' w.nextHandle 20).reverse ++ w.openHandles := by
      rw [List.mem_append, List.mem_reverse, List.mem_range'_1]
      exact Or.inl ⟨Nat.le_add_right _ _, by omega⟩
    exact List.elem_iff.mpr hmem
  · rw [gather_eq]
  · rw [gather_eq, gather_eq]; simp

/-- Claim C8: on a wrapper that was never entered (`self.client = None`),
`ProperAsyncHTTPClient.__aexit__` completes without error and releases
nothing (world unchanged, no events), while
`ForgetfulAsyncHTTPClient.__aexit__` raises `AttributeError`; once a
client is present (`some h`), the two variants' exits behave
identically — the `None` guard is the only behavioural difference. -/
theorem aexit_none_guard_only_difference (b : String) (w : World) (h : Nat) :
    ProperAsyncHTTPClient.aexit ⟨b, none⟩ w = Except.ok (w, []) ∧
    ForgetfulAsyncHTTPClient.aexit ⟨b, none⟩ w = Except.error PyErr.attributeError ∧
    ProperAsyncHTTPClient.aexit ⟨b, some h⟩ w =
      ForgetfulAsyncHTTPClient.aexit ⟨b, some h⟩ w := by
  refine ⟨rfl, rfl, rfl⟩

/-- Claim C9: a `ForgetfulAsyncHTTPClient` or `ProperAsyncHTTPClient`
that was constructed but never entered via `__aenter__` has
`self.client = None`, and calling `get` on it raises `AttributeError`
while acquiring no resource (world unchanged, no events), whatever the
URL and whatever the network would have answered. -/
theorem get_without_enter_attribute_error (b url : String)
    (net : Except PyErr Nat) (w : World) :
    (ForgetfulAsyncHTTPClient.init b).client = none ∧
    (ForgetfulAsyncHTTPClient.init b).get url net w =
      (Except.error PyErr.attributeError, w, []) ∧
    (ProperAsyncHTTPClient.init b).client = none ∧
    (ProperAsyncHTTPClient.init b).get url net w =
      (Except.error PyErr.attributeError, w, []) := by
  refine ⟨rfl, rfl, rfl, rfl⟩

/-- Claim C10: `BadAsyncHTTPClient.__init__` eagerly acquires an
underlying client at construction (a fresh handle is issued, opened, and
the acquisition recorded), whereas `ForgetfulAsyncHTTPClient.__init__`
and `ProperAsyncHTTPClient.__init__` set `self.client = None` and acquire
nothing (they are pure on the handle pool); for those two variants the
first acquisition happens in `__aenter__`. -/
theorem init_acquisition_behavior (b : String) (w : World) :
    (BadAsyncHTTPClient.init b w).1.client = w.nextHandle ∧
    (BadAsyncHTTPClient.init b w).2.1.openHandles = w.nextHandle :: w.openHandles ∧
    (BadAsyncHTTPClient.init b w).2.2 = [Ev.acquire w.nextHandle] ∧
    (ForgetfulAsyncHTTPClient.init b).client = none ∧
    (ProperAsyncHTTPClient.init b).client = none ∧
    ((ForgetfulAsyncHTTPClient.init b).aenter w).1.client = some w.nextHandle ∧
    ((ForgetfulAsyncHTTPClient.init b).aenter w).2.2 = [Ev.acquire w.nextHandle] ∧
    ((ProperAsyncHTTPClient.init b).aenter w).1.client = some w.nextHandle ∧
    ((ProperAsyncHTTPClient.init b).aenter w).2.2 = [Ev.acquire w.nextHandle] := by
  refine ⟨rfl, rfl, rfl, rfl, rfl, rfl, rfl, rfl, rfl⟩
